import Mathlib

/-!
Verification development for the pangram/haiku CRUD routes in
src/routes/index.js.

Shallow embedding notes:
  - A request to /create carries three optional query parameters
    (request.query.line1_5 and friends); an absent parameter is `none`.
  - The Mongoose document built by the create handler therefore has
    three Option String fields (`Query` below); a record that survived
    validation is stored with its three string fields (`Pangram` below).
  - JavaScript strings are modelled by Lean String; `toLowerCase()` is
    modelled character-wise (the letters the validator cares about are
    ASCII), and `s.indexOf(ch) == -1` is modelled as list membership of
    the character in the characters of `s`.
  - The external word-info HTTP service (rhymebrain getWordInfo) is
    modelled as an oracle `String -> Option Int` giving the result of
    `parseInt(data.syllables)`: `some n` for a parsed integer, `none`
    for NaN (failed call, missing or unusable body).  In JavaScript
    `NaN == n` is false, so a `none` response compares unequal to every
    required count.
  - Mongoose validation semantics used by this code: each schema path
    carries an ordered list of validators (the implicit `required`
    check first, then the custom validators in declaration order);
    custom validators do not run on an absent value; the validation
    error object holds at most one error per path (err.errors.line1_5
    etc., exactly as the create handler reads them), the first failing
    validator of the path providing the message.
  - The database is modelled as a list of stored records in insertion
    order; `find().sort(\x7b_id: -1\x7d)` returns them newest first,
    i.e. the reverse of the insertion order, since ObjectIds increase
    with insertion time.
-/

namespace PangramApp

/-- The three /create query parameters; an absent parameter is `none`. -/
structure Query where
  line1_5 : Option String
  line2_7 : Option String
  line3_5 : Option String
deriving DecidableEq

/-- A stored Pangram record: all three required fields passed validation. -/
structure Pangram where
  line1_5 : String
  line2_7 : String
  line3_5 : String
deriving DecidableEq

/-- PangramSchema.methods.character_count:
    `return this.line1_5.length + this.line2_7.length + this.line3_5.length`. -/
def Pangram.character_count (p : Pangram) : Nat :=
  p.line1_5.length + p.line2_7.length + p.line3_5.length

/-- The 26 letters the pangram validator scans, in the order of the source
    (`var letters = "zqxjkvbpygfwmucldrhsnioate"`). -/
def letters : List Char := "zqxjkvbpygfwmucldrhsnioate".data

/-- The 26 lowercase letters a-z, used to state the spec claims. -/
def lowercaseAlphabet : List Char := "abcdefghijklmnopqrstuvwxyz".data

/-- Character-wise model of JavaScript `toLowerCase()` (ASCII letters). -/
def jsToLower (s : String) : List Char := s.data.map Char.toLower

/-- The string scanned by the pangram validator:
    `((this.line1_5 || '') + (this.line2_7 || '') + (this.line3_5 || '')).toLowerCase()`. -/
def concatLower (l1 l2 l3 : Option String) : List Char :=
  jsToLower ((l1.getD "") ++ (l2.getD "") ++ (l3.getD ""))

/-- The PangramSchema.path('line2_7') validator: loop over the 26 characters
    of `letters`, fail if any is absent from the combined lowercased text
    (`s.indexOf(letters.charAt(i)) == -1`). -/
def pangram_validator (l1 l2 l3 : Option String) : Bool :=
  letters.all (fun c => (concatLower l1 l2 l3).contains c)

/-- validate_syllables: one GET to the word-info service for `value`, then
    `callback(parseInt(data.syllables) == required_syllables)`.  Returns the
    callback argument together with the list of API requests issued (always
    exactly the single lookup of `value`: there is no retry). -/
def validate_syllables (oracle : String → Option Int) (value : String)
    (required_syllables : Int) : Bool × List String :=
  ((match oracle value with
    | some syllables => syllables == required_syllables
    | none => false), [value])

/-- Mongoose default message for a missing required path. -/
def requiredMsg (path : String) : String := "Path " ++ path ++ " is required."

/-- Message of the line1_5 syllable validator. -/
def msgLine1 : String := "Line 1 doesn\x27t have 5 syllables."

/-- Message of the line2_7 syllable validator. -/
def msgLine2 : String := "Line 2 doesn\x27t have 7 syllables."

/-- Message of the line3_5 syllable validator. -/
def msgLine3 : String := "Line 3 doesn\x27t have 5 syllables."

/-- Message of the pangram validator. -/
def msgPangram : String := "Not a pangram!"

/-- Validation outcome: at most one error message per schema path, exactly
    the shape the create handler reads back (err.errors.line1_5.message...). -/
structure ValidationErrors where
  line1_5 : Option String
  line2_7 : Option String
  line3_5 : Option String
deriving DecidableEq

/-- Validation of path line1_5: required, then the 5-syllable validator. -/
def err1 (oracle : String → Option Int) (q : Query) : Option String :=
  match q.line1_5 with
  | none => some (requiredMsg "line1_5")
  | some v => if (validate_syllables oracle v 5).1 then none else some msgLine1

/-- Validation of path line2_7: required, then the pangram validator (declared
    first in the source), then the 7-syllable validator; the first failing
    validator supplies the single message of the path. -/
def err2 (oracle : String → Option Int) (q : Query) : Option String :=
  match q.line2_7 with
  | none => some (requiredMsg "line2_7")
  | some v =>
      if pangram_validator q.line1_5 q.line2_7 q.line3_5 then
        if (validate_syllables oracle v 7).1 then none else some msgLine2
      else some msgPangram

/-- Validation of path line3_5: required, then the 5-syllable validator. -/
def err3 (oracle : String → Option Int) (q : Query) : Option String :=
  match q.line3_5 with
  | none => some (requiredMsg "line3_5")
  | some v => if (validate_syllables oracle v 5).1 then none else some msgLine3

/-- Validation of the whole document built from the query parameters. -/
def validateDoc (oracle : String → Option Int) (q : Query) : ValidationErrors :=
  ⟨err1 oracle q, err2 oracle q, err3 oracle q⟩

/-- pangram.save reports an error exactly when some path has a validation error. -/
def hasErrors (e : ValidationErrors) : Bool :=
  e.line1_5.isSome || e.line2_7.isSome || e.line3_5.isSome

/-- The `errors` array built by the create handler: push line1_5 message if
    present, then line2_7, then line3_5. -/
def mkErrorList (e : ValidationErrors) : List String :=
  e.line1_5.toList ++ e.line2_7.toList ++ e.line3_5.toList

/-- JavaScript `Array.prototype.join(' ')`. -/
def joinSpace : List String → String
  | [] => ""
  | [m] => m
  | m :: rest => m ++ " " ++ joinSpace rest

/-- The error text surfaced to the user: `errors.join(' ')`. -/
def surfacedError (oracle : String → Option Int) (q : Query) : String :=
  joinSpace (mkErrorList (validateDoc oracle q))

/-- JavaScript string concatenation of a possibly-undefined query value
    (`'&line1_5=' + request.query.line1_5` renders undefined as "undefined"). -/
def jsParam (o : Option String) : String := o.getD "undefined"

/-- Result of the /create handler: the database after the request and the
    redirect target passed to response.redirect. -/
structure CreateResult where
  db : List Pangram
  redirect : String
deriving DecidableEq

/-- The /create handler: build a document from the query parameters, save it;
    on a validation error leave the store unchanged and redirect to "/" with
    the joined error messages and the echoed parameters; on success append
    the record and redirect to "/". -/
def create (oracle : String → Option Int) (db : List Pangram) (q : Query) :
    CreateResult :=
  let e := validateDoc oracle q
  if hasErrors e then
    { db := db
      redirect := "/?error=" ++ joinSpace (mkErrorList e)
        ++ "&line1_5=" ++ jsParam q.line1_5
        ++ "&line2_7=" ++ jsParam q.line2_7
        ++ "&line3_5=" ++ jsParam q.line3_5 }
  else
    { db := db ++ [⟨q.line1_5.getD "", q.line2_7.getD "", q.line3_5.getD ""⟩]
      redirect := "/" }

/-- The home page listing: `Pangram.find().sort(\x7b_id: -1\x7d)`, i.e. all
    stored records, newest first (reverse insertion order). -/
def listPangrams (db : List Pangram) : List Pangram := db.reverse

/-- Every lowercase letter occurs in the scanned `letters` string. -/
lemma alphabet_subset_letters : ∀ c ∈ lowercaseAlphabet, c ∈ letters := by decide

/-- Every character of the scanned `letters` string is a lowercase letter. -/
lemma letters_subset_alphabet : ∀ c ∈ letters, c ∈ lowercaseAlphabet := by decide

/-- The pangram validator accepts exactly when every letter a-z occurs in the
    combined lowercased text of the three (possibly absent) fields. -/
lemma pangram_validator_true_iff (l1 l2 l3 : Option String) :
    pangram_validator l1 l2 l3 = true ↔
      ∀ c ∈ lowercaseAlphabet, c ∈ concatLower l1 l2 l3 := by
  unfold pangram_validator
  rw [List.all_eq_true]
  constructor
  · intro h c hc
    have h2 := h c (alphabet_subset_letters c hc)
    simpa using h2
  · intro h c hc
    have h2 := h c (letters_subset_alphabet c hc)
    simpa using h2

/-- Reduction of err1 when the parameter is absent. -/
lemma err1_none (oracle : String → Option Int) (q : Query) (hq : q.line1_5 = none) :
    err1 oracle q = some (requiredMsg "line1_5") := by
  unfold err1; rw [hq]

/-- Reduction of err1 when the parameter is present. -/
lemma err1_some (oracle : String → Option Int) (q : Query) (v : String)
    (hq : q.line1_5 = some v) :
    err1 oracle q =
      if (validate_syllables oracle v 5).1 then none else some msgLine1 := by
  unfold err1; rw [hq]

/-- Reduction of err2 when the parameter is absent. -/
lemma err2_none (oracle : String → Option Int) (q : Query) (hq : q.line2_7 = none) :
    err2 oracle q = some (requiredMsg "line2_7") := by
  unfold err2; rw [hq]

/-- Reduction of err2 when the parameter is present. -/
lemma err2_some (oracle : String → Option Int) (q : Query) (v : String)
    (hq : q.line2_7 = some v) :
    err2 oracle q =
      if pangram_validator q.line1_5 (some v) q.line3_5 then
        if (validate_syllables oracle v 7).1 then none else some msgLine2
      else some msgPangram := by
  unfold err2; rw [hq]

/-- Reduction of err3 when the parameter is absent. -/
lemma err3_none (oracle : String → Option Int) (q : Query) (hq : q.line3_5 = none) :
    err3 oracle q = some (requiredMsg "line3_5") := by
  unfold err3; rw [hq]

/-- Reduction of err3 when the parameter is present. -/
lemma err3_some (oracle : String → Option Int) (q : Query) (v : String)
    (hq : q.line3_5 = some v) :
    err3 oracle q =
      if (validate_syllables oracle v 5).1 then none else some msgLine3 := by
  unfold err3; rw [hq]

/-- C8: the derived total character count of a stored record is the sum of the
    lengths of its three text fields, i.e. the length of their concatenation:
    every character of the three fields, spaces and punctuation included, is
    counted exactly once. -/
theorem character_count_counts_every_char (p : Pangram) :
    p.character_count = (p.line1_5 ++ p.line2_7 ++ p.line3_5).length := by
  simp [Pangram.character_count, String.length_append]

/-- C10: the letter-coverage validator is total on possibly-absent fields: an
    absent field is treated as the empty string before concatenation and
    lowercasing, and the validator accepts exactly when the resulting text
    contains all 26 letters, so a submission with absent fields simply fails
    the pangram rule unless the remaining text covers the alphabet. -/
theorem pangram_check_total (l1 l2 l3 : Option String) :
    pangram_validator l1 l2 l3 = true ↔
      ∀ c ∈ lowercaseAlphabet,
        c ∈ jsToLower ((l1.getD "") ++ (l2.getD "") ++ (l3.getD "")) :=
  pangram_validator_true_iff l1 l2 l3

/-- C1: if the three submitted lines, concatenated and lowercased, omit at
    least one of the 26 letters a-z, then validation fails and the record is
    not persisted. -/
theorem missing_letter_rejects (oracle : String → Option Int) (db : List Pangram)
    (q : Query)
    (h : ∃ c ∈ lowercaseAlphabet, c ∉ concatLower q.line1_5 q.line2_7 q.line3_5) :
    hasErrors (validateDoc oracle q) = true ∧ (create oracle db q).db = db := by
  have hpv : pangram_validator q.line1_5 q.line2_7 q.line3_5 = false := by
    rcases h with ⟨c, hc, hm⟩
    by_contra hx
    rw [Bool.not_eq_false] at hx
    exact hm ((pangram_validator_true_iff _ _ _).1 hx c hc)
  have herr : (validateDoc oracle q).line2_7.isSome = true := by
    cases hq : q.line2_7 with
    | none => simp [validateDoc, err2_none oracle q hq]
    | some v =>
        rw [hq] at hpv
        simp [validateDoc, err2_some oracle q v hq, hpv]
  have hE : hasErrors (validateDoc oracle q) = true := by
    simp [hasErrors, herr]
  exact ⟨hE, by simp [create, hE]⟩

/-- Witness for C1 at a concrete rejected submission. -/
theorem missing_letter_rejects_witness :
    (∃ c ∈ lowercaseAlphabet,
      c ∉ concatLower (some "aaa") (some "aaa") (some "aaa")) ∧
    (hasErrors (validateDoc (fun _ => some 5)
        ⟨some "aaa", some "aaa", some "aaa"⟩) = true ∧
      (create (fun _ => some 5) [] ⟨some "aaa", some "aaa", some "aaa"⟩).db = []) :=
  ⟨⟨'b', by decide, by decide⟩,
    missing_letter_rejects (fun _ => some 5) [] ⟨some "aaa", some "aaa", some "aaa"⟩
      ⟨'b', by decide, by decide⟩⟩

/-- C2: a submission passes validation only if the external service reports
    exactly 5 syllables for line 1, exactly 7 for line 2 and exactly 5 for
    line 3; equivalently, validation fails unless the counts are (5,7,5). -/
theorem validation_passes_only_575 (oracle : String → Option Int) (q : Query)
    (h : hasErrors (validateDoc oracle q) = false) :
    (∃ v1, q.line1_5 = some v1 ∧ (validate_syllables oracle v1 5).1 = true) ∧
    (∃ v2, q.line2_7 = some v2 ∧ (validate_syllables oracle v2 7).1 = true) ∧
    (∃ v3, q.line3_5 = some v3 ∧ (validate_syllables oracle v3 5).1 = true) := by
  simp only [hasErrors, validateDoc, Bool.or_eq_false_iff] at h
  obtain ⟨⟨h1, h2⟩, h3⟩ := h
  replace h1 : err1 oracle q = none := by simpa using h1
  replace h2 : err2 oracle q = none := by simpa using h2
  replace h3 : err3 oracle q = none := by simpa using h3
  refine ⟨?_, ?_, ?_⟩
  · cases hq : q.line1_5 with
    | none => rw [err1_none oracle q hq] at h1; exact absurd h1 (by simp)
    | some v =>
        rw [err1_some oracle q v hq] at h1
        by_cases h5 : (validate_syllables oracle v 5).1 = true
        · exact ⟨v, rfl, h5⟩
        · rw [Bool.not_eq_true] at h5
          rw [h5] at h1
          exact absurd h1 (by simp)
  · cases hq : q.line2_7 with
    | none => rw [err2_none oracle q hq] at h2; exact absurd h2 (by simp)
    | some v =>
        rw [err2_some oracle q v hq] at h2
        by_cases h7 : (validate_syllables oracle v 7).1 = true
        · exact ⟨v, rfl, h7⟩
        · rw [Bool.not_eq_true] at h7
          rw [h7] at h2
          cases hpv : pangram_validator q.line1_5 (some v) q.line3_5 <;>
            rw [hpv] at h2 <;> exact absurd h2 (by simp)
  · cases hq : q.line3_5 with
    | none => rw [err3_none oracle q hq] at h3; exact absurd h3 (by simp)
    | some v =>
        rw [err3_some oracle q v hq] at h3
        by_cases h5 : (validate_syllables oracle v 5).1 = true
        · exact ⟨v, rfl, h5⟩
        · rw [Bool.not_eq_true] at h5
          rw [h5] at h3
          exact absurd h3 (by simp)

/-- A concrete submission that passes validation: the three lines cover the
    alphabet and the oracle reports 5, 7 and 5 syllables for them. -/
def passOracle : String → Option Int := fun s => if s = "klmnopqrst" then some 7 else some 5

/-- The query parameters of the concrete passing submission. -/
def passQuery : Query := ⟨some "abcdefghij", some "klmnopqrst", some "uvwxyz"⟩

/-- Witness for C2 at a concrete accepted submission. -/
theorem validation_passes_only_575_witness :
    hasErrors (validateDoc passOracle passQuery) = false ∧
    ((∃ v1, passQuery.line1_5 = some v1 ∧ (validate_syllables passOracle v1 5).1 = true) ∧
     (∃ v2, passQuery.line2_7 = some v2 ∧ (validate_syllables passOracle v2 7).1 = true) ∧
     (∃ v3, passQuery.line3_5 = some v3 ∧ (validate_syllables passOracle v3 5).1 = true)) :=
  ⟨by decide, validation_passes_only_575 passOracle passQuery (by decide)⟩

/-- C3: a submission that passes validation appends exactly one new record to
    the store, and the listing of the new store returns all records newest
    first, so the new record appears first and the older listing follows. -/
theorem create_success_appends (oracle : String → Option Int) (db : List Pangram)
    (q : Query) (h : hasErrors (validateDoc oracle q) = false) :
    (create oracle db q).db =
      db ++ [⟨q.line1_5.getD "", q.line2_7.getD "", q.line3_5.getD ""⟩] ∧
    (create oracle db q).db.length = db.length + 1 ∧
    listPangrams (create oracle db q).db =
      (⟨q.line1_5.getD "", q.line2_7.getD "", q.line3_5.getD ""⟩ : Pangram) ::
        listPangrams db := by
  refine ⟨by simp [create, h], by simp [create, h], ?_⟩
  simp [create, h, listPangrams]

/-- Witness for C3 at a concrete accepted submission. -/
theorem create_success_appends_witness :
    hasErrors (validateDoc passOracle passQuery) = false ∧
    ((create passOracle [] passQuery).db =
        [] ++ [⟨"abcdefghij", "klmnopqrst", "uvwxyz"⟩] ∧
     (create passOracle [] passQuery).db.length = ([] : List Pangram).length + 1 ∧
     listPangrams (create passOracle [] passQuery).db =
        (⟨"abcdefghij", "klmnopqrst", "uvwxyz"⟩ : Pangram) :: listPangrams []) :=
  ⟨by decide, create_success_appends passOracle [] passQuery (by decide)⟩

/-- C6: when the external syllable-count call fails or returns an unusable
    body (the parsed count is NaN, modelled as `none`), the validator issues
    exactly the single lookup (no retry), reports a non-matching count, and
    the corresponding line fails validation. -/
theorem failed_lookup_fails_validation (oracle : String → Option Int)
    (value : String) (n : Int) (q : Query)
    (h1 : oracle value = none) (h2 : q.line1_5 = some value) :
    (validate_syllables oracle value n).1 = false ∧
    (validate_syllables oracle value n).2 = [value] ∧
    (validateDoc oracle q).line1_5.isSome = true := by
  refine ⟨by simp [validate_syllables, h1], rfl, ?_⟩
  have he := err1_some oracle q value h2
  simp [validateDoc, he, validate_syllables, h1]

/-- Witness for C6 at a concrete failed lookup. -/
theorem failed_lookup_fails_validation_witness :
    (fun (_ : String) => (none : Option Int)) "foo" = none ∧
    (⟨some "foo", some "bar", some "baz"⟩ : Query).line1_5 = some "foo" ∧
    ((validate_syllables (fun _ => none) "foo" 5).1 = false ∧
     (validate_syllables (fun _ => none) "foo" 5).2 = ["foo"] ∧
     (validateDoc (fun _ => none) ⟨some "foo", some "bar", some "baz"⟩).line1_5.isSome = true) :=
  ⟨rfl, rfl,
    failed_lookup_fails_validation (fun _ => none) "foo" 5
      ⟨some "foo", some "bar", some "baz"⟩ rfl rfl⟩

/-- C7: the create handler redirects to the list view: on validation failure
    the target carries the joined error text and the three echoed submitted
    values as query parameters, on success it is the bare list view. -/
theorem create_redirect_shape (oracle : String → Option Int) (db : List Pangram)
    (q : Query) :
    (create oracle db q).redirect =
      if hasErrors (validateDoc oracle q) then
        "/?error=" ++ surfacedError oracle q
          ++ "&line1_5=" ++ jsParam q.line1_5
          ++ "&line2_7=" ++ jsParam q.line2_7
          ++ "&line3_5=" ++ jsParam q.line3_5
      else "/" := by
  by_cases h : hasErrors (validateDoc oracle q) = true
  · simp [create, h, surfacedError]
  · rw [Bool.not_eq_true] at h
    simp [create, h]

/-- The possible values of the line1_5 path error. -/
lemma err1_cases (oracle : String → Option Int) (q : Query) :
    err1 oracle q = none ∨ err1 oracle q = some (requiredMsg "line1_5") ∨
      err1 oracle q = some msgLine1 := by
  unfold err1
  cases q.line1_5 with
  | none => simp
  | some v => by_cases h5 : (validate_syllables oracle v 5).1 = true <;> simp [h5]

/-- The possible values of the line2_7 path error. -/
lemma err2_cases (oracle : String → Option Int) (q : Query) :
    err2 oracle q = none ∨ err2 oracle q = some (requiredMsg "line2_7") ∨
      err2 oracle q = some msgPangram ∨ err2 oracle q = some msgLine2 := by
  unfold err2
  cases q.line2_7 with
  | none => simp
  | some v =>
      by_cases hp : pangram_validator q.line1_5 (some v) q.line3_5 = true <;>
        by_cases h7 : (validate_syllables oracle v 7).1 = true <;> simp [hp, h7]

/-- The possible values of the line3_5 path error. -/
lemma err3_cases (oracle : String → Option Int) (q : Query) :
    err3 oracle q = none ∨ err3 oracle q = some (requiredMsg "line3_5") ∨
      err3 oracle q = some msgLine3 := by
  unfold err3
  cases q.line3_5 with
  | none => simp
  | some v => by_cases h5 : (validate_syllables oracle v 5).1 = true <;> simp [h5]

/-- Every message in the errors array is non-empty. -/
lemma mkErrorList_all_ne_empty (oracle : String → Option Int) (q : Query) :
    ∀ m ∈ mkErrorList (validateDoc oracle q), m ≠ "" := by
  intro m hm
  simp only [mkErrorList, validateDoc, List.mem_append, Option.mem_toList,
    Option.mem_def] at hm
  rcases hm with (h | h) | h
  · rcases err1_cases oracle q with h0 | h0 | h0 <;> rw [h0] at h <;>
      simp only [Option.some_inj, reduceCtorEq] at h <;> subst h <;> decide
  · rcases err2_cases oracle q with h0 | h0 | h0 | h0 <;> rw [h0] at h <;>
      simp only [Option.some_inj, reduceCtorEq] at h <;> subst h <;> decide
  · rcases err3_cases oracle q with h0 | h0 | h0 <;> rw [h0] at h <;>
      simp only [Option.some_inj, reduceCtorEq] at h <;> subst h <;> decide

/-- When validation reports an error the errors array is non-empty. -/
lemma mkErrorList_ne_nil {e : ValidationErrors} (h : hasErrors e = true) :
    mkErrorList e ≠ [] := by
  rcases e with ⟨a, b, c⟩
  cases a <;> cases b <;> cases c <;> simp_all [hasErrors, mkErrorList]

/-- Joining a list headed by a non-empty message yields a non-empty string. -/
lemma joinSpace_ne_empty (m : String) (rest : List String) (hm : m ≠ "") :
    joinSpace (m :: rest) ≠ "" := by
  cases rest with
  | nil => simpa [joinSpace] using hm
  | cons r rs =>
      intro hemp
      have hlen := congrArg String.length hemp
      simp [joinSpace, String.length_append] at hlen
      exact absurd hlen.1.2 (by decide)

/-- C4: a submission that fails validation leaves the store unchanged, and the
    response is a redirect whose error query parameter is a non-empty message. -/
theorem create_failure_preserves (oracle : String → Option Int) (db : List Pangram)
    (q : Query) (h : hasErrors (validateDoc oracle q) = true) :
    (create oracle db q).db = db ∧
    surfacedError oracle q ≠ "" ∧
    (create oracle db q).redirect = "/?error=" ++ surfacedError oracle q
      ++ "&line1_5=" ++ jsParam q.line1_5
      ++ "&line2_7=" ++ jsParam q.line2_7
      ++ "&line3_5=" ++ jsParam q.line3_5 := by
  have hne : surfacedError oracle q ≠ "" := by
    unfold surfacedError
    cases hL : mkErrorList (validateDoc oracle q) with
    | nil => exact absurd hL (mkErrorList_ne_nil h)
    | cons m rest =>
        exact joinSpace_ne_empty m rest
          (mkErrorList_all_ne_empty oracle q m (by rw [hL]; exact List.mem_cons_self m rest))
  exact ⟨by simp [create, h], hne, by simp [create, h, surfacedError]⟩

/-- Witness for C4 at a concrete rejected submission. -/
theorem create_failure_preserves_witness :
    hasErrors (validateDoc (fun _ => none) ⟨some "a", some "a", some "a"⟩) = true ∧
    ((create (fun _ => none) [] ⟨some "a", some "a", some "a"⟩).db = [] ∧
     surfacedError (fun _ => none) ⟨some "a", some "a", some "a"⟩ ≠ "" ∧
     (create (fun _ => none) [] ⟨some "a", some "a", some "a"⟩).redirect =
       "/?error=" ++ surfacedError (fun _ => none) ⟨some "a", some "a", some "a"⟩
         ++ "&line1_5=" ++ jsParam (some "a")
         ++ "&line2_7=" ++ jsParam (some "a")
         ++ "&line3_5=" ++ jsParam (some "a")) :=
  ⟨by decide,
    create_failure_preserves (fun _ => none) [] ⟨some "a", some "a", some "a"⟩ (by decide)⟩

/-- Executable substring test: `needle` occurs contiguously inside `hay`. -/
def occursIn (hay needle : List Char) : Bool :=
  (List.range (hay.length + 1)).any (fun i => needle.isPrefixOf (hay.drop i))

/-- A list is a prefix of itself followed by anything. -/
lemma isPrefixOf_append_self (ys zs : List Char) :
    List.isPrefixOf ys (ys ++ zs) = true := by
  induction ys with
  | nil => simp [List.isPrefixOf]
  | cons a as ih => simp [List.isPrefixOf, ih]

/-- Soundness of `occursIn`: any contiguous occurrence is detected, so a
    string whose `occursIn` test for `needle` is false cannot be written as
    any concatenation `xs ++ needle ++ zs`. -/
lemma occursIn_of_append (xs ys zs : List Char) :
    occursIn (xs ++ ys ++ zs) ys = true := by
  unfold occursIn
  rw [List.any_eq_true]
  refine ⟨xs.length, List.mem_range.2 ?_, ?_⟩
  · simp [List.length_append]
    omega
  · rw [List.append_assoc, List.drop_left]
    exact isPrefixOf_append_self ys zs

/-- The oracle of the C5 counterexample: every lookup parses to 3 syllables. -/
def c5Oracle : String → Option Int := fun _ => some 3

/-- The query of the C5 counterexample: short lines that are no pangram. -/
def c5Query : Query := ⟨some "hi", some "hey", some "yo"⟩

/-- C5 is false as stated: at this submission the letter-coverage rule and
    all three per-line syllable rules fail, yet the surfaced error text
    contains no occurrence of the line-2 syllable message, because the error
    object keeps at most one message per field and line 2 already carries the
    letter-coverage message.  The surfaced text is therefore not the
    concatenation of the messages of all failing rules. -/
theorem per_path_message_loss :
    (validate_syllables c5Oracle "hey" 7).1 = false ∧
    pangram_validator c5Query.line1_5 c5Query.line2_7 c5Query.line3_5 = false ∧
    surfacedError c5Oracle c5Query =
      "Line 1 doesn\x27t have 5 syllables. Not a pangram! Line 3 doesn\x27t have 5 syllables." ∧
    occursIn (surfacedError c5Oracle c5Query).data msgLine2.data = false := by
  decide

/-- Auxiliary: the length of the errors array counts one entry per failing field. -/
lemma mkErrorList_length (e : ValidationErrors) :
    (mkErrorList e).length =
      (if e.line1_5.isSome then 1 else 0) + (if e.line2_7.isSome then 1 else 0) +
        (if e.line3_5.isSome then 1 else 0) := by
  rcases e with ⟨a, b, c⟩
  cases a <;> cases b <;> cases c <;> simp [mkErrorList]

/-- C5 (amended): each failing field — not each failing rule — contributes
    exactly one human-readable message (for line 2 the letter-coverage rule
    takes precedence over the syllable rule), and the surfaced error text is
    the space-separated join of those per-field messages. -/
theorem error_messages_per_field (oracle : String → Option Int) (q : Query) :
    surfacedError oracle q = joinSpace (mkErrorList (validateDoc oracle q)) ∧
    (mkErrorList (validateDoc oracle q)).length =
      (if (validateDoc oracle q).line1_5.isSome then 1 else 0) +
      (if (validateDoc oracle q).line2_7.isSome then 1 else 0) +
      (if (validateDoc oracle q).line3_5.isSome then 1 else 0) :=
  ⟨rfl, mkErrorList_length (validateDoc oracle q)⟩

end PangramApp
